import Mathlib

/-!
Verification development for the `fuzzyblue` atmospheric-scattering
precompute pipeline (`src/precompute.rs`).

The embedding models `Atmosphere::build` as a pure function from a
`Builder` configuration and a `Parameters` value to the list of commands
it records into the command buffer, mirroring the Vulkan calls made by
the source.  Machine integers (`u32` fields, Vulkan bitmasks and queue
family indices) are modelled as `Nat`; the only arithmetic that can
overflow a `u32` in the source (the scattering-extent width product) is
reduced modulo `2 ^ 32`.  Floating point scalars never influence control
flow or any recorded command apart from the all-zero clear color, which
is modelled exactly.
-/

namespace Fuzzyblue

/-- Modulus of the Rust `u32` type. -/
def u32Mod : Nat := 4294967296

/-- Vulkan access-flag bit `VK_ACCESS_UNIFORM_READ_BIT`. -/
def ACCESS_UNIFORM_READ : Nat := 8

/-- Vulkan access-flag bit `VK_ACCESS_SHADER_READ_BIT`. -/
def ACCESS_SHADER_READ : Nat := 32

/-- Vulkan access-flag bit `VK_ACCESS_SHADER_WRITE_BIT`. -/
def ACCESS_SHADER_WRITE : Nat := 64

/-- Vulkan access-flag bit `VK_ACCESS_TRANSFER_WRITE_BIT`. -/
def ACCESS_TRANSFER_WRITE : Nat := 4096

/-- Vulkan stage-flag bit `VK_PIPELINE_STAGE_FRAGMENT_SHADER_BIT`. -/
def STAGE_FRAGMENT_SHADER : Nat := 128

/-- Vulkan stage-flag bit `VK_PIPELINE_STAGE_COMPUTE_SHADER_BIT`. -/
def STAGE_COMPUTE_SHADER : Nat := 2048

/-- Vulkan stage-flag bit `VK_PIPELINE_STAGE_TRANSFER_BIT`. -/
def STAGE_TRANSFER : Nat := 4096

/-- Vulkan sentinel `VK_QUEUE_FAMILY_IGNORED` (`u32::MAX`). -/
def QUEUE_FAMILY_IGNORED : Nat := 4294967295

/-- The images created by `Atmosphere::build` (precompute.rs 1168-1234). -/
inductive Img
  | transmittance
  | scattering
  | irradiance
  | deltaIrradiance
  | deltaRayleigh
  | deltaMie
  | scatteringDensity
  | deltaMultipleScattering
deriving DecidableEq, Fintype, Repr

/-- The sole buffer created by `Atmosphere::build`: the packed parameter
uniform buffer (precompute.rs 1236-1246). -/
inductive Buf
  | params
deriving DecidableEq, Fintype, Repr

/-- The six compute passes owned by `Builder` (precompute.rs 24-29). -/
inductive PassId
  | transmittance
  | directIrradiance
  | indirectIrradiance
  | singleScattering
  | scatteringDensity
  | multipleScattering
deriving DecidableEq, Fintype, Repr

/-- The descriptor sets allocated by `Atmosphere::build`
(precompute.rs 1113-1136 and 1156-1165). -/
inductive DS
  | params
  | transmittance
  | directIrradiance
  | indirectIrradiance
  | singleScattering
  | scatteringDensity
  | multipleScattering
  | render
deriving DecidableEq, Fintype, Repr

/-- Vulkan descriptor types used by the precompute pipeline. -/
inductive DescriptorType
  | uniformBuffer
  | combinedImageSampler
  | storageImage
deriving DecidableEq, Fintype, Repr

/-- Vulkan image layouts used by the precompute pipeline.  `other` covers
caller-chosen final layouts that are none of the named ones. -/
inductive ImageLayout
  | undefined
  | general
  | shaderReadOnlyOptimal
  | transferDstOptimal
  | other (code : Nat)
deriving DecidableEq, Repr

/-- Model of `vk::ImageMemoryBarrier`.  The subresource range is the same
full single-level color range in every barrier the source records, so it
is not modelled. -/
structure ImageMemoryBarrier where
  srcAccessMask : Nat
  dstAccessMask : Nat
  oldLayout : ImageLayout
  newLayout : ImageLayout
  srcQueueFamilyIndex : Nat
  dstQueueFamilyIndex : Nat
  image : Img
deriving DecidableEq, Repr

/-- Model of `vk::BufferMemoryBarrier`.  Offset and size are `0` and
`WHOLE_SIZE` in every barrier the source records, so they are not
modelled. -/
structure BufferMemoryBarrier where
  srcAccessMask : Nat
  dstAccessMask : Nat
  srcQueueFamilyIndex : Nat
  dstQueueFamilyIndex : Nat
  buffer : Buf
deriving DecidableEq, Repr

/-- Commands recorded into the command buffer by the precompute code.
Each constructor mirrors one `device.cmd_*` call.  Push-constant data is
always the 4 native-endian bytes of a `u32`, modelled by its value. -/
inductive Cmd
  | updateBuffer (buffer : Buf) (offset : Nat) (byteLen : Nat)
  | pipelineBarrier (srcStage dstStage : Nat)
      (bufferBarriers : List BufferMemoryBarrier)
      (imageBarriers : List ImageMemoryBarrier)
  | bindPipeline (pass : PassId)
  | bindDescriptorSets (pass : PassId) (firstSet : Nat) (sets : List DS)
  | pushConstants (pass : PassId) (offset : Nat) (value : Nat)
  | dispatch (x y z : Nat)
  | clearColorImage (image : Img) (layout : ImageLayout)
      (color : Int × Int × Int × Int)
deriving DecidableEq, Repr

/-- Model of `vk::Extent2D`. -/
structure Extent2D where
  width : Nat
  height : Nat
deriving DecidableEq, Repr

/-- Model of `vk::Extent3D`. -/
structure Extent3D where
  width : Nat
  height : Nat
  depth : Nat
deriving DecidableEq, Repr

/-- The fields of `Parameters` (precompute.rs 690-769) that determine the
recorded command sequence.  The physical `f32` coefficients and density
profiles never influence any recorded command beyond the packed bytes of
the parameter upload, whose layout is modelled separately by the
`ParamsRaw` offset arithmetic below, so their values are omitted. -/
structure Parameters where
  usage : Nat
  dst_stage_mask : Nat
  dst_access_mask : Nat
  layout : ImageLayout
  order : Nat
  transmittance_mu_size : Nat
  transmittance_r_size : Nat
  scattering_r_size : Nat
  scattering_mu_size : Nat
  scattering_mu_s_size : Nat
  scattering_nu_size : Nat
  irradiance_mu_s_size : Nat
  irradiance_r_size : Nat
deriving DecidableEq, Repr

/-- `Parameters::transmittance_extent` (precompute.rs 772-777). -/
def Parameters.transmittance_extent (p : Parameters) : Extent2D :=
  { width := p.transmittance_mu_size
    height := p.transmittance_r_size }

/-- `Parameters::irradiance_extent` (precompute.rs 779-784). -/
def Parameters.irradiance_extent (p : Parameters) : Extent2D :=
  { width := p.irradiance_mu_s_size
    height := p.irradiance_r_size }

/-- `Parameters::scattering_extent` (precompute.rs 786-793).  The `u32`
product wraps modulo `2 ^ 32`. -/
def Parameters.scattering_extent (p : Parameters) : Extent3D :=
  { width := p.scattering_nu_size * p.scattering_mu_s_size % u32Mod
    height := p.scattering_mu_size
    depth := p.scattering_r_size }

/-- The resolution and synchronization fields of
`impl Default for Parameters` (precompute.rs 849-934). -/
def defaultParameters : Parameters :=
  { usage := 0
    dst_stage_mask := STAGE_FRAGMENT_SHADER
    dst_access_mask := ACCESS_SHADER_READ
    layout := ImageLayout.shaderReadOnlyOptimal
    order := 4
    transmittance_mu_size := 256
    transmittance_r_size := 64
    scattering_r_size := 32
    scattering_mu_size := 128
    scattering_mu_s_size := 32
    scattering_nu_size := 8
    irradiance_mu_s_size := 64
    irradiance_r_size := 16 }

/-- The queue-family configuration of `Builder` (precompute.rs 15-30)
that `Atmosphere::build` consults. -/
structure Builder where
  gfx_queue_family : Nat
  compute_queue_family : Option Nat
deriving DecidableEq, Repr

/-- Descriptor types of the shared parameters descriptor-set layout,
in binding order (Builder::new, precompute.rs 70-83). -/
def paramsLayoutTypes : List DescriptorType :=
  [DescriptorType.uniformBuffer]

/-- Descriptor types of the transmittance pass layout
(precompute.rs 100-113). -/
def transmittanceLayoutTypes : List DescriptorType :=
  [DescriptorType.storageImage]

/-- Descriptor types of the direct-irradiance pass layout
(precompute.rs 128-150). -/
def directIrradianceLayoutTypes : List DescriptorType :=
  [DescriptorType.combinedImageSampler, DescriptorType.storageImage]

/-- Descriptor types of the indirect-irradiance pass layout
(precompute.rs 165-211). -/
def indirectIrradianceLayoutTypes : List DescriptorType :=
  [DescriptorType.combinedImageSampler, DescriptorType.combinedImageSampler,
   DescriptorType.combinedImageSampler, DescriptorType.storageImage,
   DescriptorType.storageImage]

/-- Descriptor types of the single-scattering pass layout
(precompute.rs 231-269). -/
def singleScatteringLayoutTypes : List DescriptorType :=
  [DescriptorType.combinedImageSampler, DescriptorType.storageImage,
   DescriptorType.storageImage, DescriptorType.storageImage]

/-- Descriptor types of the scattering-density pass layout
(precompute.rs 284-338). -/
def scatteringDensityLayoutTypes : List DescriptorType :=
  [DescriptorType.combinedImageSampler, DescriptorType.combinedImageSampler,
   DescriptorType.combinedImageSampler, DescriptorType.combinedImageSampler,
   DescriptorType.combinedImageSampler, DescriptorType.storageImage]

/-- Descriptor types of the multiple-scattering pass layout
(precompute.rs 358-396). -/
def multipleScatteringLayoutTypes : List DescriptorType :=
  [DescriptorType.combinedImageSampler, DescriptorType.combinedImageSampler,
   DescriptorType.storageImage, DescriptorType.storageImage]

/-- The layouts of the seven descriptor sets allocated from the
precompute descriptor pool, in allocation order (precompute.rs
1113-1128). -/
def allocatedSetLayouts : List (List DescriptorType) :=
  [paramsLayoutTypes, transmittanceLayoutTypes, directIrradianceLayoutTypes,
   indirectIrradianceLayoutTypes, singleScatteringLayoutTypes,
   scatteringDensityLayoutTypes, multipleScatteringLayoutTypes]

/-- Total count of descriptors of type `t` across the seven allocated
sets. -/
def allocatedDescriptorCount (t : DescriptorType) : Nat :=
  (allocatedSetLayouts.map fun l => l.count t).sum

/-- `max_sets` of the precompute descriptor pool
(precompute.rs 1091-1094). -/
def precomputePoolMaxSets : Nat := 7

/-- The `pool_sizes` of the precompute descriptor pool
(precompute.rs 1095-1108). -/
def precomputePoolSizes : List (DescriptorType × Nat) :=
  [(DescriptorType.uniformBuffer, 1),
   (DescriptorType.combinedImageSampler, 12),
   (DescriptorType.storageImage, 10)]

/-- Target resource of one descriptor write. -/
inductive Target
  | image (i : Img)
  | buffer (b : Buf)
deriving DecidableEq, Repr

/-- The contents written into each descriptor set by the single
`update_descriptor_sets` call of `Atmosphere::build` (precompute.rs
1259-1601), as (binding, descriptor type, target) triples in binding
order. -/
def dsWrites : DS → List (Nat × DescriptorType × Target)
  | DS.params =>
    [(0, DescriptorType.uniformBuffer, Target.buffer Buf.params)]
  | DS.transmittance =>
    [(0, DescriptorType.storageImage, Target.image Img.transmittance)]
  | DS.directIrradiance =>
    [(0, DescriptorType.combinedImageSampler, Target.image Img.transmittance),
     (1, DescriptorType.storageImage, Target.image Img.deltaIrradiance)]
  | DS.singleScattering =>
    [(0, DescriptorType.combinedImageSampler, Target.image Img.transmittance),
     (1, DescriptorType.storageImage, Target.image Img.deltaRayleigh),
     (2, DescriptorType.storageImage, Target.image Img.deltaMie),
     (3, DescriptorType.storageImage, Target.image Img.scattering)]
  | DS.scatteringDensity =>
    [(0, DescriptorType.combinedImageSampler, Target.image Img.transmittance),
     (1, DescriptorType.combinedImageSampler, Target.image Img.deltaRayleigh),
     (2, DescriptorType.combinedImageSampler, Target.image Img.deltaMie),
     (3, DescriptorType.combinedImageSampler,
       Target.image Img.deltaMultipleScattering),
     (4, DescriptorType.combinedImageSampler, Target.image Img.deltaIrradiance),
     (5, DescriptorType.storageImage, Target.image Img.scatteringDensity)]
  | DS.indirectIrradiance =>
    [(0, DescriptorType.combinedImageSampler, Target.image Img.deltaRayleigh),
     (1, DescriptorType.combinedImageSampler, Target.image Img.deltaMie),
     (2, DescriptorType.combinedImageSampler,
       Target.image Img.deltaMultipleScattering),
     (3, DescriptorType.storageImage, Target.image Img.deltaIrradiance),
     (4, DescriptorType.storageImage, Target.image Img.irradiance)]
  | DS.multipleScattering =>
    [(0, DescriptorType.combinedImageSampler, Target.image Img.transmittance),
     (1, DescriptorType.combinedImageSampler, Target.image Img.scatteringDensity),
     (2, DescriptorType.storageImage, Target.image Img.deltaMultipleScattering),
     (3, DescriptorType.storageImage, Target.image Img.scattering)]
  | DS.render =>
    [(0, DescriptorType.uniformBuffer, Target.buffer Buf.params),
     (1, DescriptorType.combinedImageSampler, Target.image Img.transmittance),
     (2, DescriptorType.combinedImageSampler, Target.image Img.scattering)]

/-- The `init_barrier` template (precompute.rs 1603-1617): `undefined`
to `general`, destination access shader-write. -/
def initBarrier (img : Img) : ImageMemoryBarrier :=
  { srcAccessMask := 0
    dstAccessMask := ACCESS_SHADER_WRITE
    oldLayout := ImageLayout.undefined
    newLayout := ImageLayout.general
    srcQueueFamilyIndex := QUEUE_FAMILY_IGNORED
    dstQueueFamilyIndex := QUEUE_FAMILY_IGNORED
    image := img }

/-- The `write_read_barrier` template (precompute.rs 1618-1633):
shader-write to shader-read, `general` to `shader_read_only_optimal`. -/
def writeReadBarrier (img : Img) : ImageMemoryBarrier :=
  { srcAccessMask := ACCESS_SHADER_WRITE
    dstAccessMask := ACCESS_SHADER_READ
    oldLayout := ImageLayout.general
    newLayout := ImageLayout.shaderReadOnlyOptimal
    srcQueueFamilyIndex := QUEUE_FAMILY_IGNORED
    dstQueueFamilyIndex := QUEUE_FAMILY_IGNORED
    image := img }

/-- The `read_write_barrier` template (precompute.rs 1634-1649):
shader-read to shader-write, `shader_read_only_optimal` to `general`. -/
def readWriteBarrier (img : Img) : ImageMemoryBarrier :=
  { srcAccessMask := ACCESS_SHADER_READ
    dstAccessMask := ACCESS_SHADER_WRITE
    oldLayout := ImageLayout.shaderReadOnlyOptimal
    newLayout := ImageLayout.general
    srcQueueFamilyIndex := QUEUE_FAMILY_IGNORED
    dstQueueFamilyIndex := QUEUE_FAMILY_IGNORED
    image := img }

/-- The `write_barrier` template (precompute.rs 1650-1665):
shader-write to shader-read-and-write, staying in `general`. -/
def writeBarrier (img : Img) : ImageMemoryBarrier :=
  { srcAccessMask := ACCESS_SHADER_WRITE
    dstAccessMask := ACCESS_SHADER_READ ||| ACCESS_SHADER_WRITE
    oldLayout := ImageLayout.general
    newLayout := ImageLayout.general
    srcQueueFamilyIndex := QUEUE_FAMILY_IGNORED
    dstQueueFamilyIndex := QUEUE_FAMILY_IGNORED
    image := img }

/-- Size in bytes of the packed `ParamsRaw` struct; derived below from
the `repr(C)` layout rules and proved equal to the 320-byte transmute in
`cmd_update_buffer` (precompute.rs 1671-1676). -/
def paramsRawByteLen : Nat := 320

/-- Commands recorded by `Atmosphere::build` before the higher-order
loop (precompute.rs 1671-1845): parameter upload and initialization
barrier, transmittance pass, direct-irradiance pass, single-scattering
pass, irradiance clear, and the pre-loop barriers. -/
def preCmds (p : Parameters) : List Cmd :=
  [Cmd.updateBuffer Buf.params 0 paramsRawByteLen,
   Cmd.pipelineBarrier STAGE_TRANSFER STAGE_COMPUTE_SHADER
     [{ srcAccessMask := ACCESS_TRANSFER_WRITE
        dstAccessMask := ACCESS_UNIFORM_READ
        srcQueueFamilyIndex := QUEUE_FAMILY_IGNORED
        dstQueueFamilyIndex := QUEUE_FAMILY_IGNORED
        buffer := Buf.params }]
     [initBarrier Img.transmittance,
      initBarrier Img.deltaRayleigh,
      initBarrier Img.deltaMie,
      initBarrier Img.scattering,
      { initBarrier Img.irradiance with
          newLayout := ImageLayout.transferDstOptimal },
      initBarrier Img.deltaIrradiance,
      initBarrier Img.deltaMultipleScattering],
   Cmd.bindPipeline PassId.transmittance,
   Cmd.bindDescriptorSets PassId.transmittance 0 [DS.params, DS.transmittance],
   Cmd.dispatch p.transmittance_extent.width p.transmittance_extent.height 1,
   Cmd.pipelineBarrier STAGE_COMPUTE_SHADER STAGE_COMPUTE_SHADER []
     [writeReadBarrier Img.transmittance],
   Cmd.bindPipeline PassId.directIrradiance,
   Cmd.bindDescriptorSets PassId.directIrradiance 1 [DS.directIrradiance],
   Cmd.dispatch p.irradiance_extent.width p.irradiance_extent.height 1,
   Cmd.bindPipeline PassId.singleScattering,
   Cmd.bindDescriptorSets PassId.singleScattering 1 [DS.singleScattering],
   Cmd.dispatch p.scattering_extent.width p.scattering_extent.height
     p.scattering_extent.depth,
   Cmd.clearColorImage Img.irradiance ImageLayout.transferDstOptimal
     (0, 0, 0, 0),
   Cmd.pipelineBarrier STAGE_TRANSFER STAGE_COMPUTE_SHADER []
     [{ writeBarrier Img.irradiance with
          srcAccessMask := ACCESS_TRANSFER_WRITE
          oldLayout := ImageLayout.transferDstOptimal }],
   Cmd.pipelineBarrier STAGE_COMPUTE_SHADER STAGE_COMPUTE_SHADER []
     [writeReadBarrier Img.deltaRayleigh,
      writeReadBarrier Img.deltaMie]]

/-- One iteration of the higher-order loop (precompute.rs 1848-1989),
for the given scattering `order`: scattering-density pass (push constant
`order`), indirect-irradiance pass (push constant `order - 1`), and
multiple-scattering pass, with their interleaved barriers. -/
def loopBody (p : Parameters) (order : Nat) : List Cmd :=
  [Cmd.pipelineBarrier STAGE_COMPUTE_SHADER STAGE_COMPUTE_SHADER []
     [{ initBarrier Img.scatteringDensity with
          srcAccessMask := ACCESS_SHADER_READ },
      writeReadBarrier Img.deltaIrradiance,
      writeReadBarrier Img.deltaMultipleScattering],
   Cmd.bindPipeline PassId.scatteringDensity,
   Cmd.bindDescriptorSets PassId.scatteringDensity 0
     [DS.params, DS.scatteringDensity],
   Cmd.pushConstants PassId.scatteringDensity 0 order,
   Cmd.dispatch p.scattering_extent.width p.scattering_extent.height
     p.scattering_extent.depth,
   Cmd.pipelineBarrier STAGE_COMPUTE_SHADER STAGE_COMPUTE_SHADER []
     [readWriteBarrier Img.deltaIrradiance,
      writeBarrier Img.irradiance],
   Cmd.bindPipeline PassId.indirectIrradiance,
   Cmd.bindDescriptorSets PassId.indirectIrradiance 0
     [DS.params, DS.indirectIrradiance],
   Cmd.pushConstants PassId.indirectIrradiance 0 (order - 1),
   Cmd.dispatch p.irradiance_extent.width p.irradiance_extent.height 1,
   Cmd.pipelineBarrier STAGE_COMPUTE_SHADER STAGE_COMPUTE_SHADER []
     [writeReadBarrier Img.scatteringDensity,
      writeBarrier Img.scattering,
      { initBarrier Img.deltaMultipleScattering with
          srcAccessMask := ACCESS_SHADER_READ }],
   Cmd.bindPipeline PassId.multipleScattering,
   Cmd.bindDescriptorSets PassId.multipleScattering 0
     [DS.params, DS.multipleScattering],
   Cmd.dispatch p.scattering_extent.width p.scattering_extent.height
     p.scattering_extent.depth]

/-- The scattering orders the loop `for order in 2..=p.order` visits:
`[2, 3, ..., p.order]`, which is empty whenever `p.order ≤ 1`. -/
def loopOrders (p : Parameters) : List Nat :=
  List.range' 2 (p.order - 1)

/-- All commands recorded by the higher-order loop. -/
def loopCmds (p : Parameters) : List Cmd :=
  (loopOrders p).flatMap (loopBody p)

/-- Source queue family of the finalization barrier
(precompute.rs 1992-1994): the compute family when one is configured,
the graphics family otherwise. -/
def finalSrcQueueFamily (b : Builder) : Nat :=
  b.compute_queue_family.getD b.gfx_queue_family

/-- Buffer barrier of the finalization barrier (precompute.rs
2001-2009). -/
def finalBufferBarrier (b : Builder) : BufferMemoryBarrier :=
  { srcAccessMask := ACCESS_UNIFORM_READ
    dstAccessMask := 0
    srcQueueFamilyIndex := finalSrcQueueFamily b
    dstQueueFamilyIndex := b.gfx_queue_family
    buffer := Buf.params }

/-- Image barriers of the finalization barrier (precompute.rs
2010-2037), over scattering, irradiance, and transmittance. -/
def finalImageBarriers (b : Builder) (p : Parameters) :
    List ImageMemoryBarrier :=
  [{ writeReadBarrier Img.scattering with
       dstAccessMask := p.dst_access_mask
       newLayout := p.layout
       srcQueueFamilyIndex := finalSrcQueueFamily b
       dstQueueFamilyIndex := b.gfx_queue_family },
   { writeReadBarrier Img.irradiance with
       dstAccessMask := p.dst_access_mask
       newLayout := p.layout
       srcQueueFamilyIndex := finalSrcQueueFamily b
       dstQueueFamilyIndex := b.gfx_queue_family },
   { writeReadBarrier Img.transmittance with
       srcAccessMask := 0
       dstAccessMask := p.dst_access_mask
       oldLayout := ImageLayout.shaderReadOnlyOptimal
       newLayout := p.layout
       srcQueueFamilyIndex := finalSrcQueueFamily b
       dstQueueFamilyIndex := b.gfx_queue_family }]

/-- The finalization pipeline barrier (precompute.rs 1995-2038). -/
def finalCmd (b : Builder) (p : Parameters) : Cmd :=
  Cmd.pipelineBarrier STAGE_COMPUTE_SHADER p.dst_stage_mask
    [finalBufferBarrier b] (finalImageBarriers b p)

/-- The complete command sequence recorded by `Atmosphere::build`
(precompute.rs 1667-2038). -/
def buildCmds (b : Builder) (p : Parameters) : List Cmd :=
  preCmds p ++ loopCmds p ++ [finalCmd b p]

/-- Round `n` up to the next multiple of the alignment `a`. -/
def alignUp (n a : Nat) : Nat :=
  (n + a - 1) / a * a

/-- Field offsets of a `repr(C)` struct whose fields have the given
(size, alignment) pairs, starting from offset `cur`. -/
def cFieldOffsets : List (Nat × Nat) → Nat → List Nat
  | [], _ => []
  | (sz, al) :: rest, cur =>
    alignUp cur al :: cFieldOffsets rest (alignUp cur al + sz)

/-- End offset (start of trailing padding) of a `repr(C)` struct with
the given fields, starting from offset `cur`. -/
def cFieldEnd : List (Nat × Nat) → Nat → Nat
  | [], cur => cur
  | (sz, al) :: rest, cur => cFieldEnd rest (alignUp cur al + sz)

/-- Alignment of a `repr(C)` struct: maximum of its field alignments and
any explicit `repr(align(n))` attribute. -/
def cStructAlign (fields : List (Nat × Nat)) (minAlign : Nat) : Nat :=
  fields.foldl (fun m f => max m f.2) minAlign

/-- Size of a `repr(C)` struct: its end offset rounded up to its
alignment. -/
def cStructSize (fields : List (Nat × Nat)) (minAlign : Nat) : Nat :=
  alignUp (cFieldEnd fields 0) (cStructAlign fields minAlign)

/-- Size and alignment of `f32` and `u32`. -/
def scalar32 : Nat × Nat := (4, 4)

/-- Size and alignment of `[f32; 3]`. -/
def vec3f32 : Nat × Nat := (12, 4)

/-- Fields of `DensityProfileLayerRaw` (precompute.rs 1012-1021): five
`f32` scalars, with `repr(align(16))` on the struct. -/
def densityProfileLayerRawFields : List (Nat × Nat) :=
  List.replicate 5 scalar32

/-- Size of `DensityProfileLayerRaw`: 20 bytes of fields padded to the
16-byte alignment boundary. -/
def densityProfileLayerRawSize : Nat :=
  cStructSize densityProfileLayerRawFields 16

/-- Alignment of `DensityProfileLayerRaw`. -/
def densityProfileLayerRawAlign : Nat :=
  cStructAlign densityProfileLayerRawFields 16

/-- Size and alignment of `DensityProfileRaw` (precompute.rs 995-999): a
two-element array of `DensityProfileLayerRaw`. -/
def densityProfileRaw : Nat × Nat :=
  (2 * densityProfileLayerRawSize, densityProfileLayerRawAlign)

/-- Fields of `ParamsRaw` (precompute.rs 937-964) in declaration order:
solar irradiance, sun angular radius, Rayleigh scattering, bottom
radius, Mie scattering, top radius, Mie extinction, phase g, ground
albedo, mu_s_min, absorption extinction, the eight `u32` resolution
fields, then the three density profiles. -/
def paramsRawFields : List (Nat × Nat) :=
  [vec3f32, scalar32, vec3f32, scalar32, vec3f32, scalar32, vec3f32,
   scalar32, vec3f32, scalar32, vec3f32]
  ++ List.replicate 8 scalar32
  ++ List.replicate 3 densityProfileRaw

/-- Byte offsets of the `ParamsRaw` fields. -/
def paramsRawOffsets : List Nat :=
  cFieldOffsets paramsRawFields 0

/-- Total size of `ParamsRaw` under `repr(C)`. -/
def paramsRawSize : Nat :=
  cStructSize paramsRawFields 1

/-- The GPU resources created by one `Atmosphere::build` call that are
destroyed by the `Drop` impls of `PendingAtmosphere` and `Atmosphere`.
Each `Image` (view, handle, and memory are always released together,
precompute.rs 1063-1067 and 2115-2125) is one resource. -/
inductive Resource
  | deltaIrradiance
  | deltaRayleigh
  | deltaMie
  | scatteringDensity
  | deltaMultipleScattering
  | precomputeDescriptorPool
  | transmittance
  | scattering
  | irradiance
  | paramsBuffer
  | paramsMemory
  | persistentDescriptorPool
deriving DecidableEq, Fintype, Repr

/-- The terminal resources owned by the embedded `Atmosphere`
(precompute.rs 1045-1057). -/
def terminalResources : List Resource :=
  [Resource.transmittance, Resource.scattering, Resource.irradiance,
   Resource.paramsBuffer, Resource.paramsMemory,
   Resource.persistentDescriptorPool]

/-- The transient resources owned directly by `PendingAtmosphere`
(precompute.rs 2101-2110). -/
def transientResources : List Resource :=
  [Resource.deltaIrradiance, Resource.deltaRayleigh, Resource.deltaMie,
   Resource.scatteringDensity, Resource.deltaMultipleScattering,
   Resource.precomputeDescriptorPool]

/-- Ownership model of `Atmosphere`: the list of resources its `Drop`
impl will release. -/
structure AtmosphereM where
  owned : List Resource
deriving DecidableEq, Repr

/-- Resources released by `impl Drop for Atmosphere`
(precompute.rs 1059-1073). -/
def atmosphereDropReleases (a : AtmosphereM) : List Resource :=
  a.owned

/-- Ownership model of `PendingAtmosphere` (precompute.rs 2101-2110):
the transient images and precompute pool, plus the embedded
`Option<Atmosphere>`. -/
structure PendingAtmosphereM where
  transient : List Resource
  inner : Option AtmosphereM
deriving DecidableEq, Repr

/-- Resources released when a `PendingAtmosphere` is dropped: its own
`Drop` impl (precompute.rs 2112-2130) releases the transients, then the
`inner` field drop releases the embedded `Atmosphere`, when present. -/
def pendingDropReleases (pa : PendingAtmosphereM) : List Resource :=
  pa.transient ++ (match pa.inner with
    | some a => atmosphereDropReleases a
    | none => [])

/-- `PendingAtmosphere::assert_ready` (precompute.rs 2199-2201): takes
the embedded `Atmosphere` out of `inner`, leaving the spent
`PendingAtmosphere` to be dropped.  `none` models the `unwrap` panic on
an already-emptied handle. -/
def assert_ready (pa : PendingAtmosphereM) :
    Option (PendingAtmosphereM × AtmosphereM) :=
  match pa.inner with
  | some a => some ({ pa with inner := none }, a)
  | none => none

/-- The ownership state of the `PendingAtmosphere` value returned by
`Atmosphere::build` (precompute.rs 2040-2061). -/
def buildPending : PendingAtmosphereM :=
  { transient := transientResources
    inner := some { owned := terminalResources } }

/-- The result of `Atmosphere::build`: the returned handle together with
the recorded command sequence.  The function is total: no branch of the
source can fail based on `Parameters` content. -/
def build (b : Builder) (p : Parameters) :
    PendingAtmosphereM × List Cmd :=
  (buildPending, buildCmds b p)

/-- Image barriers recorded by `PendingAtmosphere::acquire_ownership`
(precompute.rs 2145-2190): transmittance arrives in
`shader_read_only_optimal`, scattering and irradiance in `general`. -/
def acquireImageBarriers (computeQF gfxQF : Nat) :
    List ImageMemoryBarrier :=
  [{ srcAccessMask := 0
     dstAccessMask := ACCESS_SHADER_READ
     oldLayout := ImageLayout.shaderReadOnlyOptimal
     newLayout := ImageLayout.shaderReadOnlyOptimal
     srcQueueFamilyIndex := computeQF
     dstQueueFamilyIndex := gfxQF
     image := Img.transmittance },
   { srcAccessMask := 0
     dstAccessMask := ACCESS_SHADER_READ
     oldLayout := ImageLayout.general
     newLayout := ImageLayout.shaderReadOnlyOptimal
     srcQueueFamilyIndex := computeQF
     dstQueueFamilyIndex := gfxQF
     image := Img.scattering },
   { srcAccessMask := 0
     dstAccessMask := ACCESS_SHADER_READ
     oldLayout := ImageLayout.general
     newLayout := ImageLayout.shaderReadOnlyOptimal
     srcQueueFamilyIndex := computeQF
     dstQueueFamilyIndex := gfxQF
     image := Img.irradiance }]

/-- Commands recorded by `PendingAtmosphere::acquire_ownership` under
its precondition (precompute.rs 2160-2190). -/
def acquireOwnershipCmds (computeQF gfxQF : Nat) : List Cmd :=
  [Cmd.pipelineBarrier 0 STAGE_FRAGMENT_SHADER
     [{ srcAccessMask := 0
        dstAccessMask := ACCESS_UNIFORM_READ
        srcQueueFamilyIndex := computeQF
        dstQueueFamilyIndex := gfxQF
        buffer := Buf.params }]
     (acquireImageBarriers computeQF gfxQF)]

/-- `PendingAtmosphere::acquire_ownership` (precompute.rs 2137-2191)
under debug-build semantics: `none` models the `debug_assert` failing
when the queue families coincide (and the `unwrap` panic on an emptied
handle); otherwise the consumer-side transfer barriers are recorded. -/
def acquire_ownership (pa : PendingAtmosphereM) (computeQF gfxQF : Nat) :
    Option (List Cmd) :=
  if computeQF = gfxQF then none
  else match pa.inner with
    | some _ => some (acquireOwnershipCmds computeQF gfxQF)
    | none => none

/-- Command-recording state tracked while replaying a command list: the
currently bound compute pipeline and the descriptor sets bound at set
indices 0 and 1. -/
structure RecState where
  pipe : Option PassId
  set0 : Option DS
  set1 : Option DS
deriving DecidableEq, Repr

/-- Recording state at the start of a command buffer: nothing bound. -/
def initRecState : RecState :=
  { pipe := none, set0 := none, set1 := none }

/-- Descriptor set bound at index `slot` after a
`cmd_bind_descriptor_sets` with the given first set index and sets. -/
def slotAfterBind (slot firstSet : Nat) (sets : List DS)
    (prev : Option DS) : Option DS :=
  if firstSet ≤ slot then
    match sets.get? (slot - firstSet) with
    | some d => some d
    | none => prev
  else prev

/-- One step of the recording state machine. -/
def stepRec (s : RecState) : Cmd → RecState
  | Cmd.bindPipeline pass => { s with pipe := some pass }
  | Cmd.bindDescriptorSets _ firstSet sets =>
    { s with
        set0 := slotAfterBind 0 firstSet sets s.set0
        set1 := slotAfterBind 1 firstSet sets s.set1 }
  | _ => s

/-- Provenance of one write to an image: either a `cmd_clear_color_image`
with the given color, or a dispatch of the bound pipeline whose bound
descriptor sets include the image as a storage (writable) binding. -/
inductive WriteSource
  | clear (color : Int × Int × Int × Int)
  | dispatch (pass : Option PassId)
deriving DecidableEq, Repr

/-- Images bound as storage (writable) images in a descriptor set. -/
def storageImagesOf : Option DS → List Img
  | none => []
  | some d => (dsWrites d).filterMap fun e =>
      match e.2 with
      | (DescriptorType.storageImage, Target.image i) => some i
      | _ => none

/-- Image writes a single command can perform, given the recording
state.  A dispatch can write exactly the storage-image bindings of the
descriptor sets bound at indices 0 and 1; a clear writes its target; no
other recorded command writes any image. -/
def cmdWrites (s : RecState) : Cmd → List (Img × WriteSource)
  | Cmd.clearColorImage img _ color => [(img, WriteSource.clear color)]
  | Cmd.dispatch _ _ _ =>
    (storageImagesOf s.set0 ++ storageImagesOf s.set1).map
      fun i => (i, WriteSource.dispatch s.pipe)
  | _ => []

/-- All image writes a command list can perform, in recorded order,
starting from recording state `s`. -/
def writeEvents (s : RecState) : List Cmd → List (Img × WriteSource)
  | [] => []
  | c :: rest => cmdWrites s c ++ writeEvents (stepRec s c) rest

/-- The sources of all writes to image `i` that the command list can
perform, in recorded order, from the initial recording state. -/
def writesTo (i : Img) (cmds : List Cmd) : List WriteSource :=
  (writeEvents initRecState cmds).filterMap fun e =>
    if e.1 = i then some e.2 else none

/-- Push-constant values handed to pipeline layout `pass`, in recorded
order. -/
def pushValues (pass : PassId) (cmds : List Cmd) : List Nat :=
  cmds.filterMap fun c =>
    match c with
    | Cmd.pushConstants q _ v => if q = pass then some v else none
    | _ => none

/-- Number of `cmd_bind_pipeline` calls for pipeline `pass`. -/
def bindPipelineCount (pass : PassId) (cmds : List Cmd) : Nat :=
  (cmds.filterMap fun c =>
    match c with
    | Cmd.bindPipeline q => if q = pass then some q else none
    | _ => none).length

/-- Recording state after replaying a command list from state `s`. -/
def recAfter (s : RecState) (cmds : List Cmd) : RecState :=
  cmds.foldl stepRec s

/-- The image writes performed before the higher-order loop, in order:
the transmittance dispatch, the direct-irradiance dispatch, the three
storage targets of the single-scattering dispatch, and the zero clear of
the final irradiance texture. -/
def preWrites : List (Img × WriteSource) :=
  [(Img.transmittance, WriteSource.dispatch (some PassId.transmittance)),
   (Img.deltaIrradiance, WriteSource.dispatch (some PassId.directIrradiance)),
   (Img.deltaRayleigh, WriteSource.dispatch (some PassId.singleScattering)),
   (Img.deltaMie, WriteSource.dispatch (some PassId.singleScattering)),
   (Img.scattering, WriteSource.dispatch (some PassId.singleScattering)),
   (Img.irradiance, WriteSource.clear (0, 0, 0, 0))]

/-- The image writes performed by one iteration of the higher-order
loop, in order: the scattering-density dispatch, the two storage targets
of the indirect-irradiance dispatch, and the two storage targets of the
multiple-scattering dispatch. -/
def loopIterWrites : List (Img × WriteSource) :=
  [(Img.scatteringDensity,
     WriteSource.dispatch (some PassId.scatteringDensity)),
   (Img.deltaIrradiance, WriteSource.dispatch (some PassId.indirectIrradiance)),
   (Img.irradiance, WriteSource.dispatch (some PassId.indirectIrradiance)),
   (Img.deltaMultipleScattering,
     WriteSource.dispatch (some PassId.multipleScattering)),
   (Img.scattering, WriteSource.dispatch (some PassId.multipleScattering))]

/-- A builder configured with a dedicated compute queue family, used to
instantiate the universally quantified theorems below. -/
def exampleBuilder : Builder :=
  { gfx_queue_family := 0, compute_queue_family := some 1 }

/-- A builder whose precompute runs on the graphics queue family. -/
def exampleBuilderSameQueue : Builder :=
  { gfx_queue_family := 0, compute_queue_family := none }

theorem writeEvents_append (s : RecState) (xs ys : List Cmd) :
    writeEvents s (xs ++ ys)
      = writeEvents s xs ++ writeEvents (recAfter s xs) ys := by
  induction xs generalizing s with
  | nil => simp [writeEvents, recAfter]
  | cons c rest ih =>
    simp [writeEvents, recAfter, List.foldl_cons, ih, List.append_assoc]

theorem filterMap_flatMap {α β γ : Type} (L : List α) (f : α → List β)
    (g : β → Option γ) :
    (L.flatMap f).filterMap g = L.flatMap fun a => (f a).filterMap g := by
  induction L with
  | nil => rfl
  | cons a rest ih => simp [List.flatMap_cons, List.filterMap_append, ih]

theorem flatMap_const_singleton {α β : Type} (L : List α) (b : β) :
    (L.flatMap fun _ => [b]) = List.replicate L.length b := by
  induction L with
  | nil => rfl
  | cons a rest ih => simp [List.flatMap_cons, ih, List.replicate_succ]

theorem flatMap_const_nil {α β : Type} (L : List α) :
    (L.flatMap fun _ => ([] : List β)) = [] := by
  induction L with
  | nil => rfl
  | cons a rest ih => simp [List.flatMap_cons, ih]

theorem writeEvents_flatMap_const (L : List Nat) (f : Nat → List Cmd)
    (es : List (Img × WriteSource)) (h : ∀ s o, writeEvents s (f o) = es)
    (s : RecState) :
    writeEvents s (L.flatMap f) = L.flatMap fun _ => es := by
  induction L generalizing s with
  | nil => rfl
  | cons o rest ih =>
    rw [List.flatMap_cons, writeEvents_append, h, ih, List.flatMap_cons]

theorem writeEvents_preCmds (p : Parameters) :
    writeEvents initRecState (preCmds p) = preWrites := rfl

theorem writeEvents_loopBody (p : Parameters) (s : RecState) (o : Nat) :
    writeEvents s (loopBody p o) = loopIterWrites := rfl

theorem writeEvents_finalCmd (b : Builder) (p : Parameters) (s : RecState) :
    writeEvents s [finalCmd b p] = [] := rfl

/-- Decomposition of the write events of the full recorded command
sequence. -/
theorem writeEvents_build (b : Builder) (p : Parameters) :
    writeEvents initRecState (buildCmds b p)
      = preWrites ++ (loopOrders p).flatMap fun _ => loopIterWrites := by
  rw [buildCmds, writeEvents_append, writeEvents_append, loopCmds,
    writeEvents_flatMap_const (loopOrders p) (loopBody p) loopIterWrites
      (fun s o => writeEvents_loopBody p s o),
    writeEvents_preCmds, writeEvents_finalCmd, List.append_nil]

theorem flatMap_id_singleton (L : List Nat) :
    (L.flatMap fun o => [o]) = L := by
  induction L with
  | nil => rfl
  | cons a rest ih => simp [List.flatMap_cons, ih]

theorem flatMap_sub_one (L : List Nat) :
    (L.flatMap fun o => [o - 1]) = L.map fun o => o - 1 := by
  induction L with
  | nil => rfl
  | cons a rest ih => simp [List.flatMap_cons, ih]

theorem pushValues_append (pass : PassId) (xs ys : List Cmd) :
    pushValues pass (xs ++ ys)
      = pushValues pass xs ++ pushValues pass ys := by
  simp [pushValues, List.filterMap_append]

theorem pushValues_density_build (b : Builder) (p : Parameters) :
    pushValues PassId.scatteringDensity (buildCmds b p) = loopOrders p := by
  rw [buildCmds, pushValues_append, pushValues_append, loopCmds]
  simp only [pushValues]
  rw [filterMap_flatMap]
  show ([] : List Nat)
      ++ (((loopOrders p).flatMap fun o => [o]) ++ ([] : List Nat))
    = loopOrders p
  rw [List.nil_append, List.append_nil, flatMap_id_singleton]

theorem pushValues_indirect_build (b : Builder) (p : Parameters) :
    pushValues PassId.indirectIrradiance (buildCmds b p)
      = (loopOrders p).map fun o => o - 1 := by
  rw [buildCmds, pushValues_append, pushValues_append, loopCmds]
  simp only [pushValues]
  rw [filterMap_flatMap]
  show ([] : List Nat)
      ++ (((loopOrders p).flatMap fun o => [o - 1]) ++ ([] : List Nat))
    = (loopOrders p).map fun o => o - 1
  rw [List.nil_append, List.append_nil, flatMap_sub_one]

theorem bindPipelineCount_multiple_build (b : Builder) (p : Parameters) :
    bindPipelineCount PassId.multipleScattering (buildCmds b p)
      = p.order - 1 := by
  rw [bindPipelineCount, buildCmds, List.filterMap_append,
    List.filterMap_append, loopCmds, filterMap_flatMap]
  show (([] : List PassId)
      ++ (((loopOrders p).flatMap fun _ => [PassId.multipleScattering])
        ++ ([] : List PassId))).length
    = p.order - 1
  rw [List.nil_append, List.append_nil, flatMap_const_singleton,
    List.length_replicate, loopOrders, List.length_range']

/-- C3: for every `Parameters` value, `transmittance_extent` returns
(transmittance_mu_size, transmittance_r_size), `irradiance_extent`
returns (irradiance_mu_s_size, irradiance_r_size), and
`scattering_extent` returns (scattering_nu_size * scattering_mu_s_size,
scattering_mu_size, scattering_r_size); each is a deterministic pure
function of the stored sizes.  The hypothesis records that the one `u32`
product involved does not wrap. -/
theorem claim3_extents_are_pure (p : Parameters)
    (h : p.scattering_nu_size * p.scattering_mu_s_size < u32Mod) :
    p.transmittance_extent
        = { width := p.transmittance_mu_size, height := p.transmittance_r_size }
    ∧ p.irradiance_extent
        = { width := p.irradiance_mu_s_size, height := p.irradiance_r_size }
    ∧ p.scattering_extent
        = { width := p.scattering_nu_size * p.scattering_mu_s_size,
            height := p.scattering_mu_size,
            depth := p.scattering_r_size } := by
  refine ⟨rfl, rfl, ?_⟩
  simp only [Parameters.scattering_extent, Nat.mod_eq_of_lt h]

/-- Witness for C3 at the default parameter set, realizing the spec's
examples: mu=256, r=64 gives transmittance 256 by 64, and nu=8, mu_s=32,
mu=128, r=32 gives scattering 256 by 128 by 32. -/
theorem claim3_witness :
    defaultParameters.transmittance_extent = { width := 256, height := 64 }
    ∧ defaultParameters.irradiance_extent = { width := 64, height := 16 }
    ∧ defaultParameters.scattering_extent
        = { width := 256, height := 128, depth := 32 } :=
  claim3_extents_are_pure defaultParameters (by decide)

/-- C6: the packed `ParamsRaw` struct has exactly the documented field
order and offsets under `repr(C)` — eleven vec3/f32 scalar fields, eight
`u32` resolution fields, then three density profiles of two layers each
with every layer 5 f32 values padded to a 16-byte boundary — its total
size is exactly 320 bytes, and that is the byte count of the
`cmd_update_buffer` upload recorded first by `Atmosphere::build`. -/
theorem claim6_params_raw_layout (b : Builder) (p : Parameters) :
    paramsRawOffsets
        = [0, 12, 16, 28, 32, 44, 48, 60, 64, 76, 80,
           92, 96, 100, 104, 108, 112, 116, 120,
           128, 192, 256]
    ∧ paramsRawSize = 320
    ∧ densityProfileLayerRawFields = List.replicate 5 scalar32
    ∧ densityProfileLayerRawSize = 32
    ∧ densityProfileRaw = (64, 16)
    ∧ paramsRawByteLen = paramsRawSize
    ∧ (buildCmds b p).head?
        = some (Cmd.updateBuffer Buf.params 0 paramsRawByteLen) :=
  ⟨by decide, by decide, rfl, by decide, by decide, by decide, rfl⟩

/-- C8: the precompute descriptor pool is sized exactly to the total
descriptor consumption of the seven allocated sets: max_sets 7, one
uniform buffer, twelve combined image samplers, and ten storage images,
each equal to the summed binding counts of the params layout and the six
pass layouts, with no excess capacity. -/
theorem claim8_descriptor_pool_exact :
    precomputePoolMaxSets = allocatedSetLayouts.length
    ∧ precomputePoolMaxSets = 7
    ∧ allocatedDescriptorCount DescriptorType.uniformBuffer = 1
    ∧ allocatedDescriptorCount DescriptorType.combinedImageSampler = 12
    ∧ allocatedDescriptorCount DescriptorType.storageImage = 10
    ∧ ∀ e ∈ precomputePoolSizes, e.2 = allocatedDescriptorCount e.1 := by
  decide

/-- C5: every resource of one build is released exactly once on both
lifecycle paths.  Dropping the `PendingAtmosphere` returned by `build`
without `assert_ready` releases the five transient delta images, the
precompute descriptor pool, and (through the embedded `Atmosphere`'s own
drop) each terminal resource, all exactly once; after `assert_ready`
detaches the `Atmosphere`, dropping the spent `PendingAtmosphere` frees
only the transient resources, and the two drops together still release
every resource exactly once — no double-free and no leak on either
path. -/
theorem claim5_release_exactly_once :
    (∀ r : Resource, (pendingDropReleases buildPending).count r = 1)
    ∧ assert_ready buildPending
        = some ({ transient := transientResources, inner := none },
                { owned := terminalResources })
    ∧ pendingDropReleases { transient := transientResources, inner := none }
        = transientResources
    ∧ (∀ r : Resource,
        (pendingDropReleases { transient := transientResources, inner := none }
          ++ atmosphereDropReleases { owned := terminalResources }).count r
        = 1)
    ∧ (∀ r : Resource, r ∈ terminalResources →
        r ∉ pendingDropReleases
            { transient := transientResources, inner := none }) := by
  decide

/-- C10: `acquire_ownership` checks its misuse precondition with a debug
assertion — called with equal queue families the assertion fails and no
commands are recorded; under the precondition the assertion passes and
the consumer-side queue-family transfer barriers, from the compute
family to the graphics family, are recorded for the parameter buffer and
the three output textures. -/
theorem claim10_acquire_ownership_guard (computeQF gfxQF : Nat) :
    (computeQF = gfxQF →
      acquire_ownership buildPending computeQF gfxQF = none)
    ∧ (computeQF ≠ gfxQF →
        acquire_ownership buildPending computeQF gfxQF
          = some (acquireOwnershipCmds computeQF gfxQF)
        ∧ ((acquireImageBarriers computeQF gfxQF).map fun ib => ib.image)
            = [Img.transmittance, Img.scattering, Img.irradiance]
        ∧ (∀ ib ∈ acquireImageBarriers computeQF gfxQF,
            ib.srcQueueFamilyIndex = computeQF
            ∧ ib.dstQueueFamilyIndex = gfxQF)
        ∧ acquireOwnershipCmds computeQF gfxQF
            = [Cmd.pipelineBarrier 0 STAGE_FRAGMENT_SHADER
                [{ srcAccessMask := 0
                   dstAccessMask := ACCESS_UNIFORM_READ
                   srcQueueFamilyIndex := computeQF
                   dstQueueFamilyIndex := gfxQF
                   buffer := Buf.params }]
                (acquireImageBarriers computeQF gfxQF)]) := by
  constructor
  · intro h
    simp [acquire_ownership, h]
  · intro h
    refine ⟨?_, rfl, ?_, rfl⟩
    · simp [acquire_ownership, h, buildPending]
    · intro ib hib
      simp only [acquireImageBarriers, List.mem_cons,
        List.not_mem_nil, or_false] at hib
      rcases hib with rfl | rfl | rfl <;> exact ⟨rfl, rfl⟩

/-- Witness for C10: with equal families (0, 0) the debug assertion
fails; with distinct families (1, 0) the transfer barriers are
recorded. -/
theorem claim10_witness :
    acquire_ownership buildPending 0 0 = none
    ∧ acquire_ownership buildPending 1 0
        = some (acquireOwnershipCmds 1 0) :=
  ⟨(claim10_acquire_ownership_guard 0 0).1 rfl,
   ((claim10_acquire_ownership_guard 1 0).2 (by decide)).1⟩

/-- C4: the finalization barrier is the last recorded command; its three
image barriers carry destination layout `Parameters.layout`, destination
access mask `Parameters.dst_access_mask`, and the barrier's destination
stage is `Parameters.dst_stage_mask`; for both the image barriers and
the parameter-buffer barrier the source queue family is the compute
family when one is configured and otherwise equals the graphics family
(the same-family barrier form, performing no ownership transfer), while
the destination queue family is always the graphics family. -/
theorem claim4_finalization_barrier (b : Builder) (p : Parameters) :
    (buildCmds b p).getLast? = some (finalCmd b p)
    ∧ finalCmd b p
        = Cmd.pipelineBarrier STAGE_COMPUTE_SHADER p.dst_stage_mask
            [finalBufferBarrier b] (finalImageBarriers b p)
    ∧ ((finalImageBarriers b p).map fun ib => ib.image)
        = [Img.scattering, Img.irradiance, Img.transmittance]
    ∧ (∀ ib ∈ finalImageBarriers b p,
        ib.newLayout = p.layout
        ∧ ib.dstAccessMask = p.dst_access_mask
        ∧ ib.srcQueueFamilyIndex = finalSrcQueueFamily b
        ∧ ib.dstQueueFamilyIndex = b.gfx_queue_family)
    ∧ (finalBufferBarrier b).srcQueueFamilyIndex = finalSrcQueueFamily b
    ∧ (finalBufferBarrier b).dstQueueFamilyIndex = b.gfx_queue_family
    ∧ (∀ c, b.compute_queue_family = some c → finalSrcQueueFamily b = c)
    ∧ (b.compute_queue_family = none →
        finalSrcQueueFamily b = b.gfx_queue_family) := by
  refine ⟨?_, rfl, rfl, ?_, rfl, rfl, ?_, ?_⟩
  · rw [buildCmds, List.getLast?_concat]
  · intro ib hib
    simp only [finalImageBarriers, List.mem_cons,
      List.not_mem_nil, or_false] at hib
    rcases hib with rfl | rfl | rfl <;> exact ⟨rfl, rfl, rfl, rfl⟩
  · intro c hc
    simp [finalSrcQueueFamily, hc]
  · intro hc
    simp [finalSrcQueueFamily, hc]

/-- Witness for C4: with a dedicated compute family 1 and graphics
family 0 the finalization barrier transfers ownership from family 1 to
family 0; with no dedicated compute family its source equals its
destination family. -/
theorem claim4_witness :
    finalSrcQueueFamily exampleBuilder = 1
    ∧ finalSrcQueueFamily exampleBuilderSameQueue
        = exampleBuilderSameQueue.gfx_queue_family
    ∧ (buildCmds exampleBuilder defaultParameters).getLast?
        = some (finalCmd exampleBuilder defaultParameters) :=
  ⟨(claim4_finalization_barrier exampleBuilder defaultParameters).2.2.2.2.2.2.1
      1 rfl,
   (claim4_finalization_barrier exampleBuilderSameQueue
      defaultParameters).2.2.2.2.2.2.2 rfl,
   (claim4_finalization_barrier exampleBuilder defaultParameters).1⟩

/-- C9: `Atmosphere::build` has no data-dependent failure mode: it is a
total function of the `Parameters` value — including order 0 and zero
sizes, with no positivity validation — always returning a fully formed
`PendingAtmosphere` and recording the same fixed command skeleton; the
loop records `order - 1` iterations, and order 0 records exactly the
same command sequence as order 1. -/
theorem claim9_total_no_failure (b : Builder) (p : Parameters) :
    (build b p).1 = buildPending
    ∧ (build b p).1.inner.isSome = true
    ∧ buildCmds b { p with order := 0 } = buildCmds b { p with order := 1 }
    ∧ loopOrders p = List.range' 2 (p.order - 1)
    ∧ buildCmds b p = preCmds p ++ loopCmds p ++ [finalCmd b p]
    ∧ (p.order ≤ 1 → buildCmds b p = preCmds p ++ [finalCmd b p]) := by
  refine ⟨rfl, rfl, rfl, rfl, rfl, ?_⟩
  intro h
  have h0 : p.order - 1 = 0 := by omega
  simp [buildCmds, loopCmds, loopOrders, h0]

/-- Witness for C9 at order 1 and at a parameter set with every size
zero: the loop vanishes and the skeleton is unchanged. -/
theorem claim9_witness :
    buildCmds exampleBuilder { defaultParameters with order := 1 }
      = preCmds { defaultParameters with order := 1 }
        ++ [finalCmd exampleBuilder { defaultParameters with order := 1 }]
    ∧ buildCmds exampleBuilder
        { usage := 0, dst_stage_mask := 0, dst_access_mask := 0
          layout := ImageLayout.undefined, order := 0
          transmittance_mu_size := 0, transmittance_r_size := 0
          scattering_r_size := 0, scattering_mu_size := 0
          scattering_mu_s_size := 0, scattering_nu_size := 0
          irradiance_mu_s_size := 0, irradiance_r_size := 0 }
      = preCmds
          { usage := 0, dst_stage_mask := 0, dst_access_mask := 0
            layout := ImageLayout.undefined, order := 0
            transmittance_mu_size := 0, transmittance_r_size := 0
            scattering_r_size := 0, scattering_mu_size := 0
            scattering_mu_s_size := 0, scattering_nu_size := 0
            irradiance_mu_s_size := 0, irradiance_r_size := 0 }
        ++ [finalCmd exampleBuilder
            { usage := 0, dst_stage_mask := 0, dst_access_mask := 0
              layout := ImageLayout.undefined, order := 0
              transmittance_mu_size := 0, transmittance_r_size := 0
              scattering_r_size := 0, scattering_mu_size := 0
              scattering_mu_s_size := 0, scattering_nu_size := 0
              irradiance_mu_s_size := 0, irradiance_r_size := 0 }] :=
  ⟨(claim9_total_no_failure exampleBuilder
      { defaultParameters with order := 1 }).2.2.2.2.2 (by decide),
   (claim9_total_no_failure exampleBuilder _).2.2.2.2.2 (by decide)⟩

/-- C1: for every `Parameters` value the higher-order loop body is
recorded exactly `order - 1` times (zero times at order 1); the inline
push constants handed to the scattering-density pipeline are exactly
`[2, ..., order]`, strictly increasing from 2 to `order`, and in each
iteration the indirect-irradiance pipeline receives exactly one less
than the scattering-density pipeline's constant of that iteration. -/
theorem claim1_loop_push_constants (b : Builder) (p : Parameters) :
    pushValues PassId.scatteringDensity (buildCmds b p)
        = List.range' 2 (p.order - 1)
    ∧ pushValues PassId.indirectIrradiance (buildCmds b p)
        = (pushValues PassId.scatteringDensity (buildCmds b p)).map
            (fun o => o - 1)
    ∧ (pushValues PassId.scatteringDensity (buildCmds b p)).length
        = p.order - 1
    ∧ bindPipelineCount PassId.multipleScattering (buildCmds b p)
        = p.order - 1
    ∧ List.Pairwise (· < ·)
        (pushValues PassId.scatteringDensity (buildCmds b p))
    ∧ (1 < p.order →
        (pushValues PassId.scatteringDensity (buildCmds b p)).head? = some 2
        ∧ (pushValues PassId.scatteringDensity (buildCmds b p)).getLast?
            = some p.order) := by
  have hd := pushValues_density_build b p
  have hi := pushValues_indirect_build b p
  refine ⟨by rw [hd, loopOrders], by rw [hi, hd],
    by rw [hd, loopOrders, List.length_range'],
    bindPipelineCount_multiple_build b p,
    by rw [hd, loopOrders]; exact List.pairwise_lt_range' 2 (p.order - 1),
    ?_⟩
  intro h
  constructor
  · obtain ⟨m, hm⟩ : ∃ m, p.order - 1 = m + 1 := ⟨p.order - 2, by omega⟩
    rw [hd, loopOrders, hm, List.range'_succ]
    rfl
  · rw [hd, loopOrders, List.getLast?_range',
      if_neg (show ¬(p.order - 1 = 0) by omega)]
    exact congrArg some (by omega)

/-- Witness for C1 at the default parameter set (order 4): the density
pass receives 2, 3, 4 and the indirect-irradiance pass 1, 2, 3. -/
theorem claim1_witness :
    pushValues PassId.scatteringDensity
        (buildCmds exampleBuilder defaultParameters) = [2, 3, 4]
    ∧ pushValues PassId.indirectIrradiance
        (buildCmds exampleBuilder defaultParameters) = [1, 2, 3]
    ∧ (pushValues PassId.scatteringDensity
        (buildCmds exampleBuilder defaultParameters)).getLast? = some 4 := by
  have h := claim1_loop_push_constants exampleBuilder defaultParameters
  refine ⟨?_, ?_, (h.2.2.2.2.2 (by decide)).2⟩
  · rw [h.1]
    rfl
  · rw [h.2.1, h.1]
    rfl

/-- C2: every `Atmosphere::build` trace clears the final irradiance
texture to exactly (0, 0, 0, 0), and the only other recorded commands
that can write the irradiance texture are the indirect-irradiance
dispatches of the higher-order loop — one per iteration — so at order 1
the irradiance texture (which the returned handle owns) receives exactly
the zero clear and nothing else. -/
theorem claim2_irradiance_zero_filled (b : Builder) (p : Parameters) :
    writesTo Img.irradiance (buildCmds b p)
        = WriteSource.clear (0, 0, 0, 0)
          :: List.replicate (p.order - 1)
              (WriteSource.dispatch (some PassId.indirectIrradiance))
    ∧ (p.order = 1 →
        writesTo Img.irradiance (buildCmds b p)
          = [WriteSource.clear (0, 0, 0, 0)])
    ∧ buildPending.inner = some { owned := terminalResources }
    ∧ Resource.irradiance ∈ terminalResources := by
  have h1 : writesTo Img.irradiance (buildCmds b p)
      = WriteSource.clear (0, 0, 0, 0)
        :: List.replicate (p.order - 1)
            (WriteSource.dispatch (some PassId.indirectIrradiance)) := by
    rw [writesTo, writeEvents_build, List.filterMap_append, filterMap_flatMap]
    show [WriteSource.clear (0, 0, 0, 0)]
        ++ ((loopOrders p).flatMap fun _ =>
            [WriteSource.dispatch (some PassId.indirectIrradiance)])
      = _
    rw [flatMap_const_singleton, loopOrders, List.length_range',
      List.singleton_append]
  refine ⟨h1, ?_, rfl, by decide⟩
  intro h
  rw [h1, h]
  rfl

/-- Witness for C2 at order 1: the zero clear is the only write the
trace can perform on the irradiance texture. -/
theorem claim2_witness :
    writesTo Img.irradiance
        (buildCmds exampleBuilder { defaultParameters with order := 1 })
      = [WriteSource.clear (0, 0, 0, 0)] :=
  (claim2_irradiance_zero_filled exampleBuilder
    { defaultParameters with order := 1 }).2.1 rfl

/-- C7: in every `Atmosphere::build` trace the delta-Rayleigh and
delta-Mie images can be written only by the single-scattering dispatch,
which precedes the higher-order loop; they are bound as storage
(writable) images only in the single-scattering descriptor set, and
every other descriptor binding of them is a sampled (read-only)
combined-image-sampler binding. -/
theorem claim7_delta_rayleigh_mie_write_once (b : Builder) (p : Parameters) :
    writesTo Img.deltaRayleigh (buildCmds b p)
        = [WriteSource.dispatch (some PassId.singleScattering)]
    ∧ writesTo Img.deltaMie (buildCmds b p)
        = [WriteSource.dispatch (some PassId.singleScattering)]
    ∧ (∀ d : DS, ∀ e ∈ dsWrites d,
        (e.2.2 = Target.image Img.deltaRayleigh
          ∨ e.2.2 = Target.image Img.deltaMie) →
        (d = DS.singleScattering
          ∧ e.2.1 = DescriptorType.storageImage)
        ∨ e.2.1 = DescriptorType.combinedImageSampler) := by
  refine ⟨?_, ?_, by decide⟩
  · rw [writesTo, writeEvents_build, List.filterMap_append, filterMap_flatMap]
    show [WriteSource.dispatch (some PassId.singleScattering)]
        ++ ((loopOrders p).flatMap fun _ => ([] : List WriteSource))
      = _
    rw [flatMap_const_nil, List.append_nil]
  · rw [writesTo, writeEvents_build, List.filterMap_append, filterMap_flatMap]
    show [WriteSource.dispatch (some PassId.singleScattering)]
        ++ ((loopOrders p).flatMap fun _ => ([] : List WriteSource))
      = _
    rw [flatMap_const_nil, List.append_nil]

/-- Witness for C7 at the default parameter set. -/
theorem claim7_witness :
    writesTo Img.deltaRayleigh (buildCmds exampleBuilder defaultParameters)
        = [WriteSource.dispatch (some PassId.singleScattering)]
    ∧ writesTo Img.deltaMie (buildCmds exampleBuilder defaultParameters)
        = [WriteSource.dispatch (some PassId.singleScattering)] :=
  ⟨(claim7_delta_rayleigh_mie_write_once exampleBuilder defaultParameters).1,
   (claim7_delta_rayleigh_mie_write_once exampleBuilder defaultParameters).2.1⟩

end Fuzzyblue
